import Mathlib

/-
Shallow embedding of the go-html-server repository (src/main.go, two nearly
identical variants) and proofs about its claimed properties.

Modelling conventions:
* `time.Time` values and `time.Now().UnixNano()` readings are modelled as `Nat`
  timestamps (nanoseconds since the Unix epoch; nonnegative for any time after
  1970, which covers every reading the program can observe).
* The Go map `notes` is modelled as an association list with Go map semantics
  (`mapGet` / `mapPut` / `mapDel`).
* `http.ResponseWriter` is modelled after the documented net/http semantics:
  the first call to `WriteHeader` commits the status code together with a
  snapshot of the current header map; changing the header map afterwards has
  no effect on the sent response, and later `WriteHeader` calls are ignored.
  A body `Write` on an uncommitted writer implicitly commits status 200.
* The external template engine (`tmpl.ExecuteTemplate`) is a black box: it is
  modelled as an oracle mapping a template name and data value to either a
  rendered body or an execution error.
* Handlers are state-passing functions: they take the notes map and a writer
  and return the written writer, the new notes map, and the Go `error` result
  (`Option String`, `none` = nil).
-/

namespace GoHtmlServer

/-- Note record (the `Note` struct of src/main.go); `Created : time.Time` is
modelled as a `Nat` timestamp. -/
structure Note where
  ID : String
  Title : String
  Content : String
  Created : Nat
deriving Repr, DecidableEq

/-- The global `notes` map, `map[string]Note`, as an association list. -/
abbrev NotesMap := List (String × Note)

/-- Keyed read in a string-keyed association list (shared model of the Go map
read `notes[k]` and of `http.Header` lookup). -/
def assocGet {β : Type} (m : List (String × β)) (k : String) : Option β :=
  (m.find? (fun kv => kv.1 == k)).map (fun kv => kv.2)

/-- Keyed update in a string-keyed association list: replace the binding if
the key is present, else add it (shared model of the Go map write
`notes[k] = v` and of `http.Header.Set`). -/
def assocSet {β : Type} (m : List (String × β)) (k : String) (v : β) : List (String × β) :=
  if m.any (fun kv => kv.1 == k) then
    m.map (fun kv => if kv.1 == k then (k, v) else kv)
  else
    m ++ [(k, v)]

/-- Go map read `notes[k]` with its ok-flag collapsed into `Option`. -/
def mapGet (m : NotesMap) (k : String) : Option Note := assocGet m k

/-- Go map write `notes[k] = v`. -/
def mapPut (m : NotesMap) (k : String) (v : Note) : NotesMap := assocSet m k v

/-- Go map delete `delete(notes, k)`. -/
def mapDel (m : NotesMap) (k : String) : NotesMap :=
  m.filter (fun kv => kv.1 != k)

/-- Header map update `w.Header().Set(k, v)` (replace or add). -/
def hdrSet (hs : List (String × String)) (k v : String) : List (String × String) :=
  assocSet hs k v

/-- Header map lookup. -/
def hdrGet (hs : List (String × String)) (k : String) : Option String :=
  assocGet hs k

/-- Model of `http.ResponseWriter`: a mutable header map, the committed
response line (status code plus the header snapshot taken when the first
`WriteHeader` ran, per the net/http documentation), and the body written so
far. -/
structure RW where
  headerMap : List (String × String)
  committed : Option (Nat × List (String × String))
  body : String
deriving Repr, DecidableEq

/-- A fresh response writer, as handed to a handler by the HTTP server. -/
def freshRW : RW := { headerMap := [], committed := none, body := "" }

/-- Model of `w.Header().Set(k, v)`. -/
def RW.setHeader (rw : RW) (k v : String) : RW :=
  { rw with headerMap := hdrSet rw.headerMap k v }

/-- Model of `w.WriteHeader(status)`: the first call commits the status and a
snapshot of the current headers; subsequent calls are ignored. -/
def RW.writeHeader (rw : RW) (status : Nat) : RW :=
  match rw.committed with
  | some _ => rw
  | none => { rw with committed := some (status, rw.headerMap) }

/-- Model of a body write `w.Write(...)`: an uncommitted writer first commits
an implicit 200, then the bytes are appended to the body. -/
def RW.write (rw : RW) (s : String) : RW :=
  let rw2 := rw.writeHeader 200
  { rw2 with body := rw2.body ++ s }

/-- The status code actually sent on the wire (`none` if nothing committed). -/
def sentStatus (rw : RW) : Option Nat := rw.committed.map (fun c => c.1)

/-- The headers actually sent on the wire (the snapshot taken at commit). -/
def sentHeaders (rw : RW) : List (String × String) :=
  match rw.committed with
  | some c => c.2
  | none => []

/-- Data values passed to templates by the handlers of src/main.go. -/
inductive TmplData where
  | notesMap (m : NotesMap)
  | note (n : Note)
  | str (s : String)
  | apiErr (msg : String)
deriving Repr, DecidableEq

/-- The external template engine as a black-box oracle: for a template name
and data it yields the rendered body or an execution error message
(`tmpl.ExecuteTemplate` returning an error). -/
abbrev RenderOracle := String → TmplData → Except String String

/-- An oracle on which every template execution succeeds. -/
def okRender : RenderOracle := fun _ _ => Except.ok "rendered"

/-- An oracle on which every template execution fails. -/
def failRender : RenderOracle := fun _ _ => Except.error "template error"

/-- An oracle on which the view template fails to execute while the error
template renders fine: the environment of a render-error failure inside a
handler followed by a successful error-page render in the wrapper. -/
def mixedRender : RenderOracle := fun nm _ =>
  if nm == "view.html" then Except.error "template error" else Except.ok "rendered"

/-- Embedding of `WriteHTML` (src/main.go lines 43-48): calls
`w.WriteHeader(status)` first, then `w.Header().Set("Content-Type",
"text/html")`, then executes the named template, returning its error. The
pair is the written writer and the Go error result. -/
def WriteHTML (tmpl : RenderOracle) (w : RW) (status : Nat) (tmplName : String)
    (data : TmplData) : RW × Option String :=
  let w1 := w.writeHeader status
  let w2 := w1.setHeader "Content-Type" "text/html"
  match tmpl tmplName data with
  | Except.ok out => (w2.write out, none)
  | Except.error e => (w2, some e)

/-- Embedding of `http.Redirect(w, r, url, code)`: sets the `Location` header
and commits the status code (the small HTML body net/http writes for GET
requests is elided; it does not affect status or headers). -/
def redirect (w : RW) (url : String) (code : Nat) : RW :=
  (w.setHeader "Location" url).writeHeader code

/-- Embedding of `http.Error(w, msg, code)`: sets a plain-text content type,
commits the code and writes the message followed by a newline. -/
def httpError (w : RW) (msg : String) (code : Nat) : RW :=
  (((w.setHeader "Content-Type" "text/plain; charset=utf-8").writeHeader code).write (msg ++ "\x0a"))

/-- An HTTP request as the handlers consume it: method, URL path, the parsed
form (`r.FormValue`), and whether `r.ParseForm()` succeeds. -/
structure Request where
  method : String
  path : String
  form : List (String × String)
  parseFormOk : Bool
deriving Repr, DecidableEq

/-- Model of `r.FormValue(k)`: the field value, or `""` when absent. -/
def formValue (r : Request) (k : String) : String :=
  ((r.form.find? (fun kv => kv.1 == k)).map (fun kv => kv.2)).getD ""

/-- Model of `strings.Split(s, "/")` at the character level: splits the
character list around every `/`, keeping empty parts, exactly as the Go
function does for a one-character separator. -/
def splitSlash : List Char → List (List Char)
  | [] => [[]]
  | c :: rest =>
    if c = '/' then [] :: splitSlash rest
    else
      match splitSlash rest with
      | [] => [[c]]
      | p :: ps => (c :: p) :: ps

/-- Embedding of `extractID` (src/main.go lines 50-56): split the path on
`/` and return the part at index 2 if there are more than two parts, else
the empty string. -/
def extractID (path : String) : String :=
  let parts := (splitSlash path.data).map String.mk
  if parts.length > 2 then parts.getD 2 "" else ""

/-- Big-endian decimal digits of a natural number, the digit sequence that
`fmt.Sprintf("%d", n)` prints for a nonnegative value. -/
def natToDigits (n : Nat) : List Char :=
  if _h : n < 10 then [Nat.digitChar n]
  else natToDigits (n / 10) ++ [Nat.digitChar (n % 10)]
decreasing_by exact Nat.div_lt_self (by omega) (by omega)

/-- Decimal formatting of a nonnegative integer, as `fmt.Sprintf("%d", n)`
produces it. -/
def decRepr (n : Nat) : String := String.mk (natToDigits n)

/-- The identifier generator of `createNote` (src/main.go line 127):
`fmt.Sprintf("%d", time.Now().UnixNano())`, with the nanosecond clock reading
`t` as a parameter. -/
def genNoteID (t : Nat) : String := decRepr t

/-- Embedding of `listNotes` (src/main.go lines 118-123): renders the whole
notes map through the list template with status 200. -/
def listNotes (tmpl : RenderOracle) (notes : NotesMap) (w : RW) :
    RW × NotesMap × Option String :=
  let res := WriteHTML tmpl w 200 "list.html" (TmplData.notesMap notes)
  (res.1, notes, res.2)

/-- Embedding of `createNote` (src/main.go lines 125-139): builds a note from
the form fields with a timestamp-derived ID (`tid` is the clock reading used
for the ID, `tc` the one stored in `Created`), inserts it, redirects to `/`
with 302, then (redundantly) renders the view template with status 200. -/
def createNote (tmpl : RenderOracle) (notes : NotesMap) (r : Request) (w : RW)
    (tid tc : Nat) : RW × NotesMap × Option String :=
  let id := genNoteID tid
  let note : Note :=
    { ID := id, Title := formValue r "title", Content := formValue r "content", Created := tc }
  let notes2 := mapPut notes id note
  let w2 := redirect w "/" 302
  let res := WriteHTML tmpl w2 200 "view.html" (TmplData.notesMap notes2)
  (res.1, notes2, res.2)

/-- Embedding of `getNote` (src/main.go lines 159-170): looks up the ID from
the path; renders the error template with 404 when absent, else the view
template with 200. -/
def getNote (tmpl : RenderOracle) (notes : NotesMap) (r : Request) (w : RW) :
    RW × NotesMap × Option String :=
  let id := extractID r.path
  match mapGet notes id with
  | none =>
    let res := WriteHTML tmpl w 404 "error.html" (TmplData.str "Note not found")
    (res.1, notes, res.2)
  | some note =>
    let res := WriteHTML tmpl w 200 "view.html" (TmplData.note note)
    (res.1, notes, res.2)

/-- Embedding of `updateNote` (src/main.go lines 172-202): looks up the ID
(404 render when absent), then parses the form (500 render on failure), then
replaces the stored note keeping the original `Created`, and redirects (302)
to the note's view path. -/
def updateNote (tmpl : RenderOracle) (notes : NotesMap) (r : Request) (w : RW) :
    RW × NotesMap × Option String :=
  let id := extractID r.path
  match mapGet notes id with
  | none =>
    let res := WriteHTML tmpl w 404 "error.html" (TmplData.apiErr "Note not found")
    (res.1, notes, res.2)
  | some note =>
    if r.parseFormOk then
      let notes2 := mapPut notes id
        { ID := id, Title := formValue r "title", Content := formValue r "content",
          Created := note.Created }
      (redirect w ("/notes/" ++ id) 302, notes2, none)
    else
      let res := WriteHTML tmpl w 500 "error.html" (TmplData.apiErr "Error parsing form")
      (res.1, notes, res.2)

/-- Embedding of `deleteNote` (src/main.go lines 204-221): looks up the ID
(404 render when absent), else deletes the entry and redirects (302) to
`/notes`. -/
def deleteNote (tmpl : RenderOracle) (notes : NotesMap) (r : Request) (w : RW) :
    RW × NotesMap × Option String :=
  let id := extractID r.path
  match mapGet notes id with
  | none =>
    let res := WriteHTML tmpl w 404 "error.html" (TmplData.apiErr "Note not found")
    (res.1, notes, res.2)
  | some _ =>
    (redirect w "/notes" 302, mapDel notes id, none)

/-- Embedding of `noteHandler` (src/main.go lines 143-157): dispatches on the
method for `/notes/{id}` routes; GET to `getNote`, PUT to `updateNote`,
DELETE to `deleteNote`, anything else is the `unsupported method` failure. -/
def noteHandler (tmpl : RenderOracle) (notes : NotesMap) (r : Request) (w : RW) :
    RW × NotesMap × Option String :=
  if r.method == "GET" then getNote tmpl notes r w
  else if r.method == "PUT" then updateNote tmpl notes r w
  else if r.method == "DELETE" then deleteNote tmpl notes r w
  else (w, notes, some ("unsupported method: " ++ r.method))

/-- Embedding of `notesHandler` (src/main.go lines 106-116): dispatches on the
method for the `/notes` route; GET to `listNotes`, POST to `createNote`,
anything else is the `unsupported method` failure. -/
def notesHandler (tmpl : RenderOracle) (notes : NotesMap) (r : Request) (w : RW)
    (tid tc : Nat) : RW × NotesMap × Option String :=
  if r.method == "GET" then listNotes tmpl notes w
  else if r.method == "POST" then createNote tmpl notes r w tid tc
  else (w, notes, some ("unsupported method: " ++ r.method))

/-- Embedding of `makeHTMLHandlerFunc` (src/main.go lines 71-84): runs the
wrapped handler (abstracted to its effect on the writer plus its error
result); on a failure it renders the error template with status 500 carrying
the failure message, and if that render itself fails it falls back to
`http.Error` with plain-text `Internal Server Error` and status 500. -/
def makeHTMLHandlerFunc (tmpl : RenderOracle) (fn : RW → RW × Option String) (w : RW) : RW :=
  let res := fn w
  match res.2 with
  | none => res.1
  | some msg =>
    let res2 := WriteHTML tmpl res.1 500 "error.html" (TmplData.apiErr msg)
    match res2.2 with
    | none => res2.1
    | some _ => httpError res2.1 "Internal Server Error" 500

/-- Synchronization-relevant events of a handler body, in program order:
acquiring or releasing `mu`, and reading or writing the shared `notes` map
(passing the map to a template render counts as a read). -/
inductive Ev where
  | lock
  | unlock
  | readMap
  | writeMap
deriving Repr, DecidableEq

/-- Lock discipline check: starting from lock depth `d`, every map access in
the event list happens at positive lock depth. -/
def locksOK : Nat → List Ev → Bool
  | _, [] => true
  | d, Ev.lock :: es => locksOK (d + 1) es
  | d, Ev.unlock :: es => locksOK (d - 1) es
  | d, Ev.readMap :: es => decide (0 < d) && locksOK d es
  | d, Ev.writeMap :: es => decide (0 < d) && locksOK d es

/-- Event trace of `listNotes` (src/main.go lines 118-123): `mu.Lock()`,
render of the `notes` map (a map read), deferred `mu.Unlock()`. -/
def listNotesTrace : List Ev := [Ev.lock, Ev.readMap, Ev.unlock]

/-- Event trace of `createNote` (src/main.go lines 125-139): the map write
`notes[id] = note` (line 135) and the render of the `notes` map (line 138),
with no `mu.Lock()` anywhere in the function body. -/
def createNoteTrace : List Ev := [Ev.writeMap, Ev.readMap]

/-- Event trace of `getNote` (src/main.go lines 159-170): `mu.Lock()`, map
read `notes[id]`, `mu.Unlock()` (the render happens after the unlock). -/
def getNoteTrace : List Ev := [Ev.lock, Ev.readMap, Ev.unlock]

/-- Event trace of `updateNote` on the path where the note exists
(src/main.go lines 172-202): lock, read, write, deferred unlock. -/
def updateNoteFoundTrace : List Ev := [Ev.lock, Ev.readMap, Ev.writeMap, Ev.unlock]

/-- Event trace of `updateNote` on the path where the note is missing:
lock, read, deferred unlock. -/
def updateNoteMissingTrace : List Ev := [Ev.lock, Ev.readMap, Ev.unlock]

/-- Event trace of `deleteNote` on the path where the note exists
(src/main.go lines 204-221): lock, read, write (`delete`), unlock. -/
def deleteNoteFoundTrace : List Ev := [Ev.lock, Ev.readMap, Ev.writeMap, Ev.unlock]

/-- Event trace of `deleteNote` on the path where the note is missing:
lock, read, unlock before the 404 render. -/
def deleteNoteMissingTrace : List Ev := [Ev.lock, Ev.readMap, Ev.unlock]

/-- The store invariant of the notes map: every stored entry has its `ID`
field equal to its key, and every key is a nonempty string of decimal
digits. -/
def StoreInv (m : NotesMap) : Prop :=
  ∀ kv ∈ m, kv.2.ID = kv.1 ∧ kv.1 ≠ "" ∧ ∀ c ∈ kv.1.data, c.isDigit = true

/-- Store states reachable from the empty initial map through the
store-mutating handlers of src/main.go. -/
inductive Reachable : NotesMap → Prop where
  | empty : Reachable []
  | createStep (tmpl : RenderOracle) (r : Request) (w : RW) (tid tc : Nat) {m : NotesMap} :
      Reachable m → Reachable (createNote tmpl m r w tid tc).2.1
  | updateStep (tmpl : RenderOracle) (r : Request) (w : RW) {m : NotesMap} :
      Reachable m → Reachable (updateNote tmpl m r w).2.1
  | deleteStep (tmpl : RenderOracle) (r : Request) (w : RW) {m : NotesMap} :
      Reachable m → Reachable (deleteNote tmpl m r w).2.1

/-
Helper lemmas (shared by several claim theorems).
-/

theorem assocGet_mapReplace_ne {β : Type} (t : List (String × β)) (k k2 : String) (v : β)
    (h : k2 ≠ k) :
    assocGet (t.map (fun kv => if kv.1 == k then (k, v) else kv)) k2 = assocGet t k2 := by
  induction t with
  | nil => simp [assocGet]
  | cons hd t ih =>
    by_cases hh : hd.1 = k
    · have hk2 : ¬hd.1 = k2 := fun hc => h (hc.symm.trans hh)
      simp [assocGet, hh, hk2, Ne.symm h] at ih ⊢
      exact ih
    · by_cases hk2 : hd.1 = k2
      · simp [assocGet, hh, hk2, h]
      · simp [assocGet, hh, hk2] at ih ⊢
        exact ih

theorem assocGet_assocSet_self {β : Type} (m : List (String × β)) (k : String) (v : β) :
    assocGet (assocSet m k v) k = some v := by
  induction m with
  | nil => simp [assocSet, assocGet]
  | cons hd t ih =>
    by_cases h : hd.1 = k
    · simp [assocSet, assocGet, h]
    · by_cases h2 : t.any (fun kv => kv.1 == k)
      · simp [assocSet, assocGet, h, h2] at ih ⊢
        exact ih
      · simp [assocSet, assocGet, h, h2] at ih ⊢
        exact ih

theorem assocGet_assocSet_ne {β : Type} (m : List (String × β)) (k k2 : String) (v : β)
    (h : k2 ≠ k) : assocGet (assocSet m k v) k2 = assocGet m k2 := by
  by_cases hany : m.any (fun kv => kv.1 == k)
  · simp only [assocSet, hany, if_pos]
    exact assocGet_mapReplace_ne m k k2 v h
  · simp only [assocSet, hany, Bool.false_eq_true, if_neg, not_false_iff]
    simp [assocGet, List.find?_append, Ne.symm h]

theorem mapGet_mapPut_self (m : NotesMap) (k : String) (v : Note) :
    mapGet (mapPut m k v) k = some v :=
  assocGet_assocSet_self m k v

theorem mapGet_mapPut_ne (m : NotesMap) (k k2 : String) (v : Note) (h : k2 ≠ k) :
    mapGet (mapPut m k v) k2 = mapGet m k2 :=
  assocGet_assocSet_ne m k k2 v h

theorem digitChar_toNat_fin : ∀ d : Fin 10, (Nat.digitChar d.val).toNat = 48 + d.val := by
  decide

theorem digitChar_isDigit_fin : ∀ d : Fin 10, (Nat.digitChar d.val).isDigit = true := by
  decide

theorem natToDigits_foldl (n : Nat) : ∀ a : Nat,
    List.foldl (fun acc c => 10 * acc + (c.toNat - 48)) a (natToDigits n)
      = a * 10 ^ (natToDigits n).length + n := by
  induction n using Nat.strong_induction_on with
  | _ n ih =>
    intro a
    by_cases h : n < 10
    · rw [natToDigits]
      simp only [h, dif_pos, List.foldl_cons, List.foldl_nil, List.length_cons,
        List.length_nil, pow_one, zero_add]
      have hd := digitChar_toNat_fin ⟨n, h⟩
      simp only at hd
      rw [hd]
      omega
    · rw [natToDigits]
      simp only [h, dif_neg, not_false_iff, List.foldl_append, List.foldl_cons,
        List.foldl_nil, List.length_append, List.length_cons, List.length_nil, zero_add]
      rw [ih (n / 10) (Nat.div_lt_self (by omega) (by omega)) a]
      have hd := digitChar_toNat_fin ⟨n % 10, Nat.mod_lt n (by omega)⟩
      simp only at hd
      rw [hd]
      rw [pow_succ, ← mul_assoc]
      generalize a * 10 ^ (natToDigits (n / 10)).length = C
      omega

theorem natToDigits_inj {a b : Nat} (h : natToDigits a = natToDigits b) : a = b := by
  have ha := natToDigits_foldl a 0
  have hb := natToDigits_foldl b 0
  rw [h] at ha
  rw [hb] at ha
  simp only [zero_mul, zero_add] at ha
  omega

theorem natToDigits_isDigit (n : Nat) : ∀ c ∈ natToDigits n, c.isDigit = true := by
  induction n using Nat.strong_induction_on with
  | _ n ih =>
    by_cases h : n < 10
    · rw [natToDigits]
      simp only [h, dif_pos, List.mem_singleton]
      intro c hc
      subst hc
      exact digitChar_isDigit_fin ⟨n, h⟩
    · rw [natToDigits]
      simp only [h, dif_neg, not_false_iff, List.mem_append, List.mem_singleton]
      intro c hc
      rcases hc with hc | hc
      · exact ih (n / 10) (Nat.div_lt_self (by omega) (by omega)) c hc
      · subst hc
        exact digitChar_isDigit_fin ⟨n % 10, Nat.mod_lt n (by omega)⟩

theorem natToDigits_ne_nil (n : Nat) : natToDigits n ≠ [] := by
  rw [natToDigits]
  split <;> simp

theorem genNoteID_eval_3 : genNoteID 3 = "3" := by
  rw [genNoteID, decRepr, natToDigits]
  rfl

theorem genNoteID_inj {a b : Nat} (h : genNoteID a = genNoteID b) : a = b :=
  natToDigits_inj (congrArg String.data h)

theorem genNoteID_ne_empty (n : Nat) : genNoteID n ≠ "" := by
  intro h
  exact natToDigits_ne_nil n (congrArg String.data h)

theorem genNoteID_isDigit (n : Nat) : ∀ c ∈ (genNoteID n).data, c.isDigit = true :=
  natToDigits_isDigit n

theorem storeInv_get_empty_none {m : NotesMap} (hinv : StoreInv m) : mapGet m "" = none := by
  unfold mapGet assocGet
  cases hf : m.find? (fun kv => kv.1 == "") with
  | none => rfl
  | some kv =>
    have hmem := List.mem_of_find?_eq_some hf
    have hp := List.find?_some hf
    have hk : kv.1 = "" := by simpa using hp
    exact absurd hk (hinv kv hmem).2.1

theorem writeHTML_ok (tmpl : RenderOracle) (w : RW) (st : Nat) (nm : String) (d : TmplData)
    (body : String) (hw : w.committed = none) (h : tmpl nm d = Except.ok body) :
    (WriteHTML tmpl w st nm d).1.committed = some (st, w.headerMap)
    ∧ (WriteHTML tmpl w st nm d).2 = none
    ∧ (WriteHTML tmpl w st nm d).1.body = w.body ++ body := by
  simp only [WriteHTML, h]
  simp [RW.write, RW.writeHeader, RW.setHeader, hw]

theorem writeHTML_err (tmpl : RenderOracle) (w : RW) (st : Nat) (nm : String) (d : TmplData)
    (e : String) (hw : w.committed = none) (h : tmpl nm d = Except.error e) :
    (WriteHTML tmpl w st nm d).1.committed = some (st, w.headerMap)
    ∧ (WriteHTML tmpl w st nm d).2 = some e
    ∧ (WriteHTML tmpl w st nm d).1.body = w.body := by
  simp only [WriteHTML, h]
  simp [RW.writeHeader, RW.setHeader, hw]

theorem writeHTML_keeps_committed (tmpl : RenderOracle) (w : RW) (st : Nat) (nm : String)
    (d : TmplData) (c : Nat × List (String × String)) (hc : w.committed = some c) :
    (WriteHTML tmpl w st nm d).1.committed = some c := by
  unfold WriteHTML
  cases h : tmpl nm d <;>
    simp [RW.write, RW.writeHeader, RW.setHeader, hc]

theorem redirect_fresh (w : RW) (url : String) (code : Nat) (hw : w.committed = none) :
    (redirect w url code).committed = some (code, hdrSet w.headerMap "Location" url)
    ∧ sentStatus (redirect w url code) = some code
    ∧ hdrGet (sentHeaders (redirect w url code)) "Location" = some url := by
  have h1 : (redirect w url code).committed = some (code, hdrSet w.headerMap "Location" url) := by
    simp [redirect, RW.writeHeader, RW.setHeader, hw]
  refine ⟨h1, ?_, ?_⟩
  · simp [sentStatus, h1]
  · simp [sentHeaders, h1, hdrGet, hdrSet]
    exact assocGet_assocSet_self w.headerMap "Location" url

theorem writeHTML_render_ok_parts (tmpl : RenderOracle) (w : RW) (st : Nat) (nm : String)
    (d : TmplData) (body : String) (h : tmpl nm d = Except.ok body) :
    (WriteHTML tmpl w st nm d).2 = none
    ∧ (WriteHTML tmpl w st nm d).1.body = w.body ++ body := by
  cases hc : w.committed with
  | none => simp [WriteHTML, h, RW.write, RW.writeHeader, RW.setHeader, hc]
  | some c => simp [WriteHTML, h, RW.write, RW.writeHeader, RW.setHeader, hc]

theorem writeHTML_render_err_parts (tmpl : RenderOracle) (w : RW) (st : Nat) (nm : String)
    (d : TmplData) (e : String) (h : tmpl nm d = Except.error e) :
    (WriteHTML tmpl w st nm d).2 = some e
    ∧ (WriteHTML tmpl w st nm d).1.body = w.body := by
  cases hc : w.committed with
  | none => simp [WriteHTML, h, RW.writeHeader, RW.setHeader, hc]
  | some c => simp [WriteHTML, h, RW.writeHeader, RW.setHeader, hc]

theorem httpError_body (w : RW) (msg : String) (code : Nat) :
    (httpError w msg code).body = w.body ++ (msg ++ "\x0a") := by
  cases hc : w.committed with
  | none => simp [httpError, RW.write, RW.writeHeader, RW.setHeader, hc]
  | some c => simp [httpError, RW.write, RW.writeHeader, RW.setHeader, hc]

theorem httpError_keeps_committed (w : RW) (msg : String) (code : Nat)
    (c : Nat × List (String × String)) (hc : w.committed = some c) :
    (httpError w msg code).committed = some c
    ∧ (httpError w msg code).body = w.body ++ (msg ++ "\x0a") := by
  simp [httpError, RW.write, RW.writeHeader, RW.setHeader, hc]

/-
Claim theorems.
-/

/-- Claim C1, counterexample: the claim states that `/notes/{id}` dispatches
POST (like PUT) to the update handler. It is false: on a store containing
note "1", a POST request to `/notes/1` is answered with the
`unsupported method: POST` failure and leaves the store unchanged, while the
update handler on the very same input succeeds (returns no failure). -/
theorem claim1_counterexample :
    (noteHandler okRender [("1", { ID := "1", Title := "a", Content := "b", Created := 5 })]
        { method := "POST", path := "/notes/1", form := [("title", "a2"), ("content", "b2")],
          parseFormOk := true } freshRW).2.2
      = some "unsupported method: POST"
    ∧ (updateNote okRender [("1", { ID := "1", Title := "a", Content := "b", Created := 5 })]
        { method := "POST", path := "/notes/1", form := [("title", "a2"), ("content", "b2")],
          parseFormOk := true } freshRW).2.2
      = none := by
  constructor <;> rfl

/-- Claim C1, amended: the `/notes/{id}` router dispatches GET to the view
handler, PUT to the update handler and DELETE to the delete handler; every
other method — POST included — produces the `UnsupportedMethod` failure.
In particular a POST request yields `unsupported method: POST` with writer
and store untouched. -/
theorem claim1_amended (tmpl : RenderOracle) (notes : NotesMap) (r : Request) (w : RW) :
    (noteHandler tmpl notes r w =
      if r.method = "GET" then getNote tmpl notes r w
      else if r.method = "PUT" then updateNote tmpl notes r w
      else if r.method = "DELETE" then deleteNote tmpl notes r w
      else (w, notes, some ("unsupported method: " ++ r.method)))
    ∧ noteHandler tmpl notes { r with method := "POST" } w
        = (w, notes, some "unsupported method: POST") := by
  constructor
  · unfold noteHandler
    by_cases h1 : r.method = "GET" <;> by_cases h2 : r.method = "PUT" <;>
      by_cases h3 : r.method = "DELETE" <;> simp [h1, h2, h3]
  · rfl

/-- Claim C2: the claim states that every read or write of the notes map in
every handler happens while the mutex is held. The code violates it:
`createNote` (src/main.go lines 125-139) performs the map write
`notes[id] = note` and then renders the map without ever acquiring `mu`,
so its event trace fails the lock-discipline check, while the traces of all
other handlers (on each of their control paths) pass it. -/
theorem claim2_create_unlocked :
    locksOK 0 createNoteTrace = false
    ∧ locksOK 0 listNotesTrace = true
    ∧ locksOK 0 getNoteTrace = true
    ∧ locksOK 0 updateNoteFoundTrace = true
    ∧ locksOK 0 updateNoteMissingTrace = true
    ∧ locksOK 0 deleteNoteFoundTrace = true
    ∧ locksOK 0 deleteNoteMissingTrace = true := by
  decide

/-- Claim C7: the claim states that `WriteHTML` commits the given status code
and sets `Content-Type: text/html` before the body is written. The code
calls `w.WriteHeader(status)` BEFORE `w.Header().Set("Content-Type",
"text/html")`; per the net/http contract the header map is snapshotted when
the status is committed, so the sent response carries the given status but
no `Content-Type` header at all — the later `Set` only mutates the
by-then-irrelevant header map. Evaluated here on a fresh writer with a
successful render at status 200. -/
theorem claim7_content_type_not_sent :
    sentStatus (WriteHTML okRender freshRW 200 "view.html" (TmplData.str "x")).1 = some 200
    ∧ hdrGet (sentHeaders (WriteHTML okRender freshRW 200 "view.html" (TmplData.str "x")).1)
        "Content-Type" = none
    ∧ hdrGet (WriteHTML okRender freshRW 200 "view.html" (TmplData.str "x")).1.headerMap
        "Content-Type" = some "text/html"
    ∧ (WriteHTML okRender freshRW 200 "view.html" (TmplData.str "x")).1.body = "rendered" := by
  refine ⟨rfl, rfl, rfl, rfl⟩

/-- Claim C8: any two create operations whose nanosecond clock readings
differ generate distinct ID strings, because the decimal formatting
`fmt.Sprintf("%d", t)` embodied in `genNoteID` is injective. -/
theorem claim8_ids_distinct (t1 t2 : Nat) (h : t1 ≠ t2) : genNoteID t1 ≠ genNoteID t2 :=
  fun hc => h (genNoteID_inj hc)

/-- Claim C8 witness: the readings 1 and 2 differ and so do their IDs. -/
theorem claim8_ids_distinct_witness : (1 : Nat) ≠ 2 ∧ genNoteID 1 ≠ genNoteID 2 :=
  ⟨by decide, claim8_ids_distinct 1 2 (by decide)⟩

/-- Claim C3: a successful update of a stored note replaces only its Title
and Content with the submitted form values: the stored note keeps its
creation timestamp (`Created`), its `ID` equals the key it is stored under,
and every other entry of the store is untouched; the handler reports no
failure. -/
theorem claim3_update_preserves (tmpl : RenderOracle) (notes : NotesMap) (r : Request)
    (w : RW) (n : Note)
    (hfound : mapGet notes (extractID r.path) = some n) (hform : r.parseFormOk = true) :
    mapGet (updateNote tmpl notes r w).2.1 (extractID r.path)
      = some { ID := extractID r.path, Title := formValue r "title",
               Content := formValue r "content", Created := n.Created }
    ∧ (∀ k2, k2 ≠ extractID r.path →
        mapGet (updateNote tmpl notes r w).2.1 k2 = mapGet notes k2)
    ∧ (updateNote tmpl notes r w).2.2 = none := by
  simp only [updateNote, hfound, hform, if_true]
  exact ⟨mapGet_mapPut_self _ _ _, fun k2 hk2 => mapGet_mapPut_ne _ _ _ _ hk2, trivial⟩

/-- Claim C3 witness: updating the note stored under "1" (created at 7) with
title "a2" and content "b2" stores exactly that note with `Created` still 7,
leaves key "2" alone and returns no failure. -/
theorem claim3_update_preserves_witness :
    mapGet (updateNote okRender
        [("1", { ID := "1", Title := "a", Content := "b", Created := 7 })]
        { method := "PUT", path := "/notes/1", form := [("title", "a2"), ("content", "b2")],
          parseFormOk := true } freshRW).2.1 "1"
      = some { ID := "1", Title := "a2", Content := "b2", Created := 7 }
    ∧ mapGet (updateNote okRender
        [("1", { ID := "1", Title := "a", Content := "b", Created := 7 })]
        { method := "PUT", path := "/notes/1", form := [("title", "a2"), ("content", "b2")],
          parseFormOk := true } freshRW).2.1 "2"
      = mapGet [("1", { ID := "1", Title := "a", Content := "b", Created := 7 })] "2"
    ∧ (updateNote okRender
        [("1", { ID := "1", Title := "a", Content := "b", Created := 7 })]
        { method := "PUT", path := "/notes/1", form := [("title", "a2"), ("content", "b2")],
          parseFormOk := true } freshRW).2.2 = none :=
  ⟨(claim3_update_preserves okRender
      [("1", { ID := "1", Title := "a", Content := "b", Created := 7 })]
      { method := "PUT", path := "/notes/1", form := [("title", "a2"), ("content", "b2")],
        parseFormOk := true } freshRW
      { ID := "1", Title := "a", Content := "b", Created := 7 } rfl rfl).1,
   (claim3_update_preserves okRender
      [("1", { ID := "1", Title := "a", Content := "b", Created := 7 })]
      { method := "PUT", path := "/notes/1", form := [("title", "a2"), ("content", "b2")],
        parseFormOk := true } freshRW
      { ID := "1", Title := "a", Content := "b", Created := 7 } rfl rfl).2.1 "2" (by decide),
   (claim3_update_preserves okRender
      [("1", { ID := "1", Title := "a", Content := "b", Created := 7 })]
      { method := "PUT", path := "/notes/1", form := [("title", "a2"), ("content", "b2")],
        parseFormOk := true } freshRW
      { ID := "1", Title := "a", Content := "b", Created := 7 } rfl rfl).2.2⟩

/-- Claim C5: an update or delete whose path ID is absent from the store
renders the not-found error page with status 404 (the page body is appended
to the writer), returns no failure to the wrapper, and leaves the store
unchanged; deleting the same absent ID again yields 404 again. -/
theorem claim5_missing_id (tmpl : RenderOracle) (notes : NotesMap) (r : Request)
    (w w2 : RW) (body : String)
    (hid : mapGet notes (extractID r.path) = none)
    (hw : w.committed = none) (hw2 : w2.committed = none)
    (hrender : tmpl "error.html" (TmplData.apiErr "Note not found") = Except.ok body) :
    sentStatus (updateNote tmpl notes r w).1 = some 404
    ∧ (updateNote tmpl notes r w).2.2 = none
    ∧ (updateNote tmpl notes r w).2.1 = notes
    ∧ (updateNote tmpl notes r w).1.body = w.body ++ body
    ∧ sentStatus (deleteNote tmpl notes r w).1 = some 404
    ∧ (deleteNote tmpl notes r w).2.2 = none
    ∧ (deleteNote tmpl notes r w).2.1 = notes
    ∧ sentStatus (deleteNote tmpl (deleteNote tmpl notes r w).2.1 r w2).1 = some 404 := by
  have hww := writeHTML_ok tmpl w 404 "error.html" (TmplData.apiErr "Note not found")
    body hw hrender
  have hww2 := writeHTML_ok tmpl w2 404 "error.html" (TmplData.apiErr "Note not found")
    body hw2 hrender
  simp only [updateNote, deleteNote, hid]
  refine ⟨?_, hww.2.1, trivial, hww.2.2, ?_, hww.2.1, trivial, ?_⟩
  · simp [sentStatus, hww.1]
  · simp [sentStatus, hww.1]
  · simp [sentStatus, hww2.1]

/-- Claim C5 witness: on the empty store, a PUT and two DELETEs of the absent
ID "9" each yield 404, no failure, and an unchanged store. -/
theorem claim5_missing_id_witness :
    sentStatus (updateNote okRender []
        { method := "PUT", path := "/notes/9", form := [], parseFormOk := true } freshRW).1
      = some 404
    ∧ (updateNote okRender []
        { method := "PUT", path := "/notes/9", form := [], parseFormOk := true } freshRW).2.2
      = none
    ∧ (updateNote okRender []
        { method := "PUT", path := "/notes/9", form := [], parseFormOk := true } freshRW).2.1
      = []
    ∧ (updateNote okRender []
        { method := "PUT", path := "/notes/9", form := [], parseFormOk := true } freshRW).1.body
      = "" ++ "rendered"
    ∧ sentStatus (deleteNote okRender []
        { method := "PUT", path := "/notes/9", form := [], parseFormOk := true } freshRW).1
      = some 404
    ∧ (deleteNote okRender []
        { method := "PUT", path := "/notes/9", form := [], parseFormOk := true } freshRW).2.2
      = none
    ∧ (deleteNote okRender []
        { method := "PUT", path := "/notes/9", form := [], parseFormOk := true } freshRW).2.1
      = []
    ∧ sentStatus (deleteNote okRender (deleteNote okRender []
        { method := "PUT", path := "/notes/9", form := [], parseFormOk := true } freshRW).2.1
        { method := "PUT", path := "/notes/9", form := [], parseFormOk := true } freshRW).1
      = some 404 :=
  claim5_missing_id okRender []
    { method := "PUT", path := "/notes/9", form := [], parseFormOk := true }
    freshRW freshRW "rendered" rfl rfl rfl rfl

/-- Claim C4: creating a note with submitted title and content commits a 302
redirect to `/`, stores under the generated ID a note carrying exactly the
submitted title and content, and a subsequent GET view of that ID finds that
very note and answers with status 200 through the view template. -/
theorem claim4_create_view_roundtrip (tmpl : RenderOracle) (notes : NotesMap)
    (r rv : Request) (w wv : RW) (tid tc : Nat)
    (hw : w.committed = none) (hwv : wv.committed = none)
    (hvmeth : rv.method = "GET") (hvpath : extractID rv.path = genNoteID tid) :
    sentStatus (createNote tmpl notes r w tid tc).1 = some 302
    ∧ hdrGet (sentHeaders (createNote tmpl notes r w tid tc).1) "Location" = some "/"
    ∧ mapGet (createNote tmpl notes r w tid tc).2.1 (genNoteID tid)
        = some { ID := genNoteID tid, Title := formValue r "title",
                 Content := formValue r "content", Created := tc }
    ∧ noteHandler tmpl (createNote tmpl notes r w tid tc).2.1 rv wv
        = ((WriteHTML tmpl wv 200 "view.html"
              (TmplData.note { ID := genNoteID tid, Title := formValue r "title",
                               Content := formValue r "content", Created := tc })).1,
           (createNote tmpl notes r w tid tc).2.1,
           (WriteHTML tmpl wv 200 "view.html"
              (TmplData.note { ID := genNoteID tid, Title := formValue r "title",
                               Content := formValue r "content", Created := tc })).2)
    ∧ sentStatus (noteHandler tmpl (createNote tmpl notes r w tid tc).2.1 rv wv).1
        = some 200 := by
  have hred := redirect_fresh w "/" 302 hw
  have hkeep := writeHTML_keeps_committed tmpl (redirect w "/" 302) 200 "view.html"
    (TmplData.notesMap (mapPut notes (genNoteID tid)
      { ID := genNoteID tid, Title := formValue r "title",
        Content := formValue r "content", Created := tc }))
    (302, hdrSet w.headerMap "Location" "/") hred.1
  have hdisp : noteHandler tmpl (createNote tmpl notes r w tid tc).2.1 rv wv
      = getNote tmpl (createNote tmpl notes r w tid tc).2.1 rv wv := by
    simp [noteHandler, hvmeth]
  have hget : getNote tmpl (createNote tmpl notes r w tid tc).2.1 rv wv
      = ((WriteHTML tmpl wv 200 "view.html"
            (TmplData.note (Note.mk (genNoteID tid) (formValue r "title")
              (formValue r "content") tc))).1,
         (createNote tmpl notes r w tid tc).2.1,
         (WriteHTML tmpl wv 200 "view.html"
            (TmplData.note (Note.mk (genNoteID tid) (formValue r "title")
              (formValue r "content") tc))).2) := by
    simp only [getNote, createNote, hvpath, mapGet_mapPut_self]
  refine ⟨?_, ?_, ?_, hdisp.trans hget, ?_⟩
  · simp only [createNote]
    simp [sentStatus, hkeep]
  · simp only [createNote]
    simp only [sentHeaders, hkeep]
    exact assocGet_assocSet_self w.headerMap "Location" "/"
  · simp only [createNote]
    exact mapGet_mapPut_self _ _ _
  · rw [hdisp, hget]
    cases hr : tmpl "view.html" (TmplData.note (Note.mk (genNoteID tid)
        (formValue r "title") (formValue r "content") tc)) with
    | ok body =>
      have hh := writeHTML_ok tmpl wv 200 "view.html" _ body hwv hr
      simp [sentStatus, hh.1]
    | error e =>
      have hh := writeHTML_err tmpl wv 200 "view.html" _ e hwv hr
      simp [sentStatus, hh.1]

/-- Claim C4 witness: creating title "Hi" / content "World" at clock readings
3 and 4 on an empty store, then viewing `/notes/3`, reproduces the claim on
concrete data. -/
theorem claim4_create_view_roundtrip_witness :
    sentStatus (createNote okRender []
        { method := "POST", path := "/notes", form := [("title", "Hi"), ("content", "World")],
          parseFormOk := true } freshRW 3 4).1 = some 302
    ∧ hdrGet (sentHeaders (createNote okRender []
        { method := "POST", path := "/notes", form := [("title", "Hi"), ("content", "World")],
          parseFormOk := true } freshRW 3 4).1) "Location" = some "/"
    ∧ mapGet (createNote okRender []
        { method := "POST", path := "/notes", form := [("title", "Hi"), ("content", "World")],
          parseFormOk := true } freshRW 3 4).2.1 (genNoteID 3)
        = some { ID := genNoteID 3, Title := "Hi", Content := "World", Created := 4 }
    ∧ sentStatus (noteHandler okRender (createNote okRender []
        { method := "POST", path := "/notes", form := [("title", "Hi"), ("content", "World")],
          parseFormOk := true } freshRW 3 4).2.1
        { method := "GET", path := "/notes/3", form := [], parseFormOk := true }
        freshRW).1 = some 200 := by
  have h := claim4_create_view_roundtrip okRender []
    { method := "POST", path := "/notes", form := [("title", "Hi"), ("content", "World")],
      parseFormOk := true }
    { method := "GET", path := "/notes/3", form := [], parseFormOk := true }
    freshRW freshRW 3 4 rfl rfl rfl (by rw [genNoteID_eval_3]; rfl)
  exact ⟨h.1, h.2.1, h.2.2.1, h.2.2.2.2⟩

/-- Claim C6, counterexample: the claim states that every handler failure
makes the wrapper respond with status 500 (error page or plain-text
fallback). It is false for every failure that reaches the wrapper on an
already-committed writer — which is what every render-error failure does,
since `WriteHTML` commits the status before executing the template. Here a
GET view of the stored note "1" fails to render ("view.html" errors after
the 200 was committed); the wrapper's error-page render succeeds, yet the
response goes out with status 200, not 500. -/
theorem claim6_counterexample :
    ((fun w0 => ((getNote mixedRender
        [("1", { ID := "1", Title := "a", Content := "b", Created := 5 })]
        { method := "GET", path := "/notes/1", form := [], parseFormOk := true } w0).1,
        (getNote mixedRender
        [("1", { ID := "1", Title := "a", Content := "b", Created := 5 })]
        { method := "GET", path := "/notes/1", form := [], parseFormOk := true } w0).2.2))
      freshRW).2 = some "template error"
    ∧ sentStatus (makeHTMLHandlerFunc mixedRender
        (fun w0 => ((getNote mixedRender
          [("1", { ID := "1", Title := "a", Content := "b", Created := 5 })]
          { method := "GET", path := "/notes/1", form := [], parseFormOk := true } w0).1,
          (getNote mixedRender
          [("1", { ID := "1", Title := "a", Content := "b", Created := 5 })]
          { method := "GET", path := "/notes/1", form := [], parseFormOk := true } w0).2.2))
        freshRW) = some 200
    ∧ sentStatus (makeHTMLHandlerFunc mixedRender
        (fun w0 => ((getNote mixedRender
          [("1", { ID := "1", Title := "a", Content := "b", Created := 5 })]
          { method := "GET", path := "/notes/1", form := [], parseFormOk := true } w0).1,
          (getNote mixedRender
          [("1", { ID := "1", Title := "a", Content := "b", Created := 5 })]
          { method := "GET", path := "/notes/1", form := [], parseFormOk := true } w0).2.2))
        freshRW) ≠ some 500 := by
  refine ⟨rfl, rfl, by decide⟩

/-- Claim C6, amended: whenever the wrapped handler returns a failure, the
wrapper runs exactly one of two write paths, decided by the outcome of
rendering the error template with the failure's message: on success it
writes the rendered error page, otherwise the plain-text Internal Server
Error fallback (the cases are mutually exclusive because the render has
exactly one outcome). Both paths request status 500, but the status actually
sent is 500 exactly when the failing handler had left the writer
uncommitted; a failure arriving on a committed writer (as every render-error
failure does) leaves the previously committed status in place. -/
theorem claim6_wrapper_failure (tmpl : RenderOracle) (fn : RW → RW × Option String)
    (w w1 : RW) (msg : String) (hfn : fn w = (w1, some msg)) :
    ((∃ body, tmpl "error.html" (TmplData.apiErr msg) = Except.ok body
        ∧ makeHTMLHandlerFunc tmpl fn w
            = (WriteHTML tmpl w1 500 "error.html" (TmplData.apiErr msg)).1
        ∧ (makeHTMLHandlerFunc tmpl fn w).body = w1.body ++ body)
     ∨ (∃ e, tmpl "error.html" (TmplData.apiErr msg) = Except.error e
        ∧ makeHTMLHandlerFunc tmpl fn w
            = httpError (WriteHTML tmpl w1 500 "error.html" (TmplData.apiErr msg)).1
                "Internal Server Error" 500
        ∧ (makeHTMLHandlerFunc tmpl fn w).body
            = w1.body ++ ("Internal Server Error" ++ "\x0a")))
    ∧ (w1.committed = none → sentStatus (makeHTMLHandlerFunc tmpl fn w) = some 500)
    ∧ (∀ c, w1.committed = some c →
        sentStatus (makeHTMLHandlerFunc tmpl fn w) = some c.1) := by
  cases hr : tmpl "error.html" (TmplData.apiErr msg) with
  | ok body =>
    have hparts := writeHTML_render_ok_parts tmpl w1 500 "error.html" (TmplData.apiErr msg)
      body hr
    have hmk : makeHTMLHandlerFunc tmpl fn w
        = (WriteHTML tmpl w1 500 "error.html" (TmplData.apiErr msg)).1 := by
      simp only [makeHTMLHandlerFunc, hfn]
      rw [show (WriteHTML tmpl w1 500 "error.html" (TmplData.apiErr msg)).2 = none
        from hparts.1]
    refine ⟨Or.inl ⟨body, rfl, hmk, by rw [hmk]; exact hparts.2⟩, ?_, ?_⟩
    · intro hw1
      have hok := writeHTML_ok tmpl w1 500 "error.html" (TmplData.apiErr msg) body hw1 hr
      rw [hmk]
      simp [sentStatus, hok.1]
    · intro c hc
      have hk := writeHTML_keeps_committed tmpl w1 500 "error.html" (TmplData.apiErr msg) c hc
      rw [hmk]
      simp [sentStatus, hk]
  | error e =>
    have hparts := writeHTML_render_err_parts tmpl w1 500 "error.html" (TmplData.apiErr msg)
      e hr
    have hmk : makeHTMLHandlerFunc tmpl fn w
        = httpError (WriteHTML tmpl w1 500 "error.html" (TmplData.apiErr msg)).1
            "Internal Server Error" 500 := by
      simp only [makeHTMLHandlerFunc, hfn]
      rw [show (WriteHTML tmpl w1 500 "error.html" (TmplData.apiErr msg)).2 = some e
        from hparts.1]
    refine ⟨Or.inr ⟨e, rfl, hmk, ?_⟩, ?_, ?_⟩
    · rw [hmk, httpError_body, hparts.2]
    · intro hw1
      have herr := writeHTML_err tmpl w1 500 "error.html" (TmplData.apiErr msg) e hw1 hr
      have hst := httpError_keeps_committed
        (WriteHTML tmpl w1 500 "error.html" (TmplData.apiErr msg)).1
        "Internal Server Error" 500 (500, w1.headerMap) herr.1
      rw [hmk]
      simp [sentStatus, hst.1]
    · intro c hc
      have hk := writeHTML_keeps_committed tmpl w1 500 "error.html" (TmplData.apiErr msg) c hc
      have hst := httpError_keeps_committed
        (WriteHTML tmpl w1 500 "error.html" (TmplData.apiErr msg)).1
        "Internal Server Error" 500 c hk
      rw [hmk]
      simp [sentStatus, hst.1]

/-- Claim C6 witness: a handler failing with "boom" on a fresh (uncommitted)
writer yields the 500 error page, while the failed view render of note "1"
(which commits 200 before failing) flows through the wrapper and goes out
with the committed status 200. -/
theorem claim6_wrapper_failure_witness :
    sentStatus (makeHTMLHandlerFunc okRender (fun w0 => (w0, some "boom")) freshRW) = some 500
    ∧ sentStatus (makeHTMLHandlerFunc mixedRender
        (fun w0 => ((getNote mixedRender
          [("1", { ID := "1", Title := "a", Content := "b", Created := 5 })]
          { method := "GET", path := "/notes/1", form := [], parseFormOk := true } w0).1,
          (getNote mixedRender
          [("1", { ID := "1", Title := "a", Content := "b", Created := 5 })]
          { method := "GET", path := "/notes/1", form := [], parseFormOk := true } w0).2.2))
        freshRW) = some 200 :=
  ⟨(claim6_wrapper_failure okRender (fun w0 => (w0, some "boom")) freshRW freshRW
      "boom" rfl).2.1 rfl,
   (claim6_wrapper_failure mixedRender
      (fun w0 => ((getNote mixedRender
        [("1", { ID := "1", Title := "a", Content := "b", Created := 5 })]
        { method := "GET", path := "/notes/1", form := [], parseFormOk := true } w0).1,
        (getNote mixedRender
        [("1", { ID := "1", Title := "a", Content := "b", Created := 5 })]
        { method := "GET", path := "/notes/1", form := [], parseFormOk := true } w0).2.2))
      freshRW
      (getNote mixedRender
        [("1", { ID := "1", Title := "a", Content := "b", Created := 5 })]
        { method := "GET", path := "/notes/1", form := [], parseFormOk := true } freshRW).1
      "template error" rfl).2.2 (200, []) rfl⟩

theorem mapGet_some_mem {m : NotesMap} {k : String} {n : Note}
    (h : mapGet m k = some n) : ∃ kv ∈ m, kv.1 = k ∧ kv.2 = n := by
  unfold mapGet assocGet at h
  cases hf : m.find? (fun kv => kv.1 == k) with
  | none => rw [hf] at h; simp at h
  | some kv =>
    rw [hf] at h
    simp at h
    have hmem := List.mem_of_find?_eq_some hf
    have hp := List.find?_some hf
    exact ⟨kv, hmem, by simpa using hp, h⟩

theorem storeInv_mapPut {m : NotesMap} {k : String} {v : Note} (hinv : StoreInv m)
    (hvk : v.ID = k) (hk : k ≠ "") (hdig : ∀ c ∈ k.data, c.isDigit = true) :
    StoreInv (mapPut m k v) := by
  intro kv hkv
  unfold mapPut assocSet at hkv
  by_cases hany : m.any (fun x => x.1 == k)
  · simp only [hany, if_pos, List.mem_map] at hkv
    obtain ⟨orig, horig, hkv⟩ := hkv
    by_cases ho : orig.1 = k
    · simp only [ho, beq_self_eq_true, if_pos] at hkv
      subst hkv
      exact ⟨hvk, hk, hdig⟩
    · simp only [ho, beq_iff_eq, if_neg, not_false_iff] at hkv
      subst hkv
      exact hinv orig horig
  · simp only [hany, Bool.false_eq_true, if_neg, not_false_iff, List.mem_append,
      List.mem_singleton] at hkv
    rcases hkv with hkv | hkv
    · exact hinv kv hkv
    · subst hkv
      exact ⟨hvk, hk, hdig⟩

theorem storeInv_mapDel {m : NotesMap} (hinv : StoreInv m) (k : String) :
    StoreInv (mapDel m k) := by
  intro kv hkv
  exact hinv kv (List.mem_of_mem_filter hkv)

/-
Claim theorems (continued).
-/

/-- Claim C9: for every request path the extracted ID is the part at index 2
of the slash-split path (the third slash-separated part) when the split has
more than two parts, and the empty string otherwise; and when the extracted
ID is empty on a GET request to the note route, the view handler answers
404 not found (with the error page body) rather than a routing failure:
the store is untouched and no failure is returned. -/
theorem claim9_extract_and_404 (tmpl : RenderOracle) (notes : NotesMap) (r : Request)
    (w : RW) (body : String)
    (hmeth : r.method = "GET") (hid : extractID r.path = "")
    (hinv : StoreInv notes) (hw : w.committed = none)
    (hrender : tmpl "error.html" (TmplData.str "Note not found") = Except.ok body) :
    (∀ path : String,
      extractID path =
        if ((splitSlash path.data).map String.mk).length > 2
        then ((splitSlash path.data).map String.mk).getD 2 "" else "")
    ∧ sentStatus (noteHandler tmpl notes r w).1 = some 404
    ∧ (noteHandler tmpl notes r w).2.2 = none
    ∧ (noteHandler tmpl notes r w).2.1 = notes
    ∧ (noteHandler tmpl notes r w).1.body = w.body ++ body := by
  have hww := writeHTML_ok tmpl w 404 "error.html" (TmplData.str "Note not found")
    body hw hrender
  have hdisp : noteHandler tmpl notes r w = getNote tmpl notes r w := by
    simp [noteHandler, hmeth]
  have hnone : mapGet notes (extractID r.path) = none := by
    rw [hid]
    exact storeInv_get_empty_none hinv
  have hget : getNote tmpl notes r w
      = ((WriteHTML tmpl w 404 "error.html" (TmplData.str "Note not found")).1, notes,
         (WriteHTML tmpl w 404 "error.html" (TmplData.str "Note not found")).2) := by
    simp only [getNote, hnone]
  rw [hdisp, hget]
  refine ⟨fun path => rfl, ?_, hww.2.1, rfl, hww.2.2⟩
  simp [sentStatus, hww.1]

/-- Claim C9 witness: on the path `/notes/` the extracted ID is empty, and a
GET for it on the empty store yields 404, no failure, an unchanged store and
the error page body; the positional characterization is instantiated at the
path `/a/b/c`. -/
theorem claim9_extract_and_404_witness :
    extractID "/a/b/c" =
      (if ((splitSlash "/a/b/c".data).map String.mk).length > 2
       then ((splitSlash "/a/b/c".data).map String.mk).getD 2 "" else "")
    ∧ sentStatus (noteHandler okRender []
        { method := "GET", path := "/notes/", form := [], parseFormOk := true } freshRW).1
      = some 404
    ∧ (noteHandler okRender []
        { method := "GET", path := "/notes/", form := [], parseFormOk := true } freshRW).2.2
      = none
    ∧ (noteHandler okRender []
        { method := "GET", path := "/notes/", form := [], parseFormOk := true } freshRW).2.1
      = []
    ∧ (noteHandler okRender []
        { method := "GET", path := "/notes/", form := [], parseFormOk := true } freshRW).1.body
      = "" ++ "rendered" := by
  have h := claim9_extract_and_404 okRender []
    { method := "GET", path := "/notes/", form := [], parseFormOk := true }
    freshRW "rendered" rfl rfl (by intro kv hkv; simp at hkv) rfl rfl
  exact ⟨h.1 "/a/b/c", h.2.1, h.2.2.1, h.2.2.2.1, h.2.2.2.2⟩

/-- Claim C10: every store state reachable from the empty map through the
create, update and delete handlers satisfies the store invariant: each entry
has its `ID` field equal to its key and every key is a nonempty string of
decimal digits. -/
theorem claim10_store_invariant {m : NotesMap} (h : Reachable m) : StoreInv m := by
  induction h with
  | empty => intro kv hkv; simp at hkv
  | createStep tmpl r w tid tc _ ih =>
    simp only [createNote]
    exact storeInv_mapPut ih rfl (genNoteID_ne_empty tid) (genNoteID_isDigit tid)
  | updateStep tmpl r w _ ih =>
    simp only [updateNote]
    cases hg : mapGet _ (extractID r.path) with
    | none => exact ih
    | some n =>
      by_cases hf : r.parseFormOk
      · simp only [hf, if_true]
        obtain ⟨kv, hkv, hk1, _⟩ := mapGet_some_mem hg
        obtain ⟨_, hne, hdig⟩ := ih kv hkv
        refine storeInv_mapPut ih rfl ?_ ?_
        · rw [← hk1]; exact hne
        · rw [← hk1]; exact hdig
      · simp only [hf, Bool.false_eq_true, if_neg, not_false_iff]
        exact ih
  | deleteStep tmpl r w _ ih =>
    simp only [deleteNote]
    cases hg : mapGet _ (extractID r.path) with
    | none => exact ih
    | some n =>
      exact storeInv_mapDel ih _

/-- Claim C10 witness: the store obtained by one create (clock readings 12
and 34) on the empty store satisfies the invariant. -/
theorem claim10_store_invariant_witness :
    StoreInv (createNote okRender []
      { method := "POST", path := "/notes", form := [("title", "x")], parseFormOk := true }
      freshRW 12 34).2.1 :=
  claim10_store_invariant
    (Reachable.createStep okRender
      { method := "POST", path := "/notes", form := [("title", "x")], parseFormOk := true }
      freshRW 12 34 Reachable.empty)

end GoHtmlServer
